import Mathlib

/-!
# GoSmartPush diagnostics: a shallow embedding

The three source files `helloworld.go`, `monitor.go` and `network.go` are
embedded as state transformers on a `World` that carries standard output, the
local clock, the runtime counters, the outcome of the HTTP GET and the state of
the response body.  The Go standard-library calls the program makes
(`fmt.Printf`, `fmt.Println`, `time.Now().Format`, `runtime.*`, `http.Get`,
`ioutil.ReadAll`, `Body.Close`, `defer`) are modelled next to the program.
-/

namespace GoSmartPush

/-! ## Text and lines -/

/-- Splits a text at every line feed; a text with `n` line feeds has `n + 1`
segments, the last one being what follows the final line feed. -/
def splitLines : List Char → List (List Char)
  | [] => [[]]
  | c :: cs =>
    if c = '\n' then [] :: splitLines cs
    else
      match splitLines cs with
      | [] => [[c]]
      | l :: ls => (c :: l) :: ls

/-- The segments of a string between line feeds. -/
def outputLines (s : String) : List String :=
  (splitLines s.data).map String.mk

/-- A text is free of line feeds. -/
def NoLineBreak (s : String) : Prop := '\n' ∉ s.data

/-- One text occurs inside another as a contiguous run of characters. -/
def Contains (s pat : String) : Prop := pat.data <:+: s.data

instance (s : String) : Decidable (NoLineBreak s) := by
  unfold NoLineBreak; infer_instance

instance (s pat : String) : Decidable (Contains s pat) := by
  unfold Contains; infer_instance

/-! ## package fmt -/

/-- Operands of the `fmt` calls of the program: Go `string`, `uint64`
(`m.Alloc`) and `int` (`runtime.NumGoroutine()`, `runtime.NumCPU()`). -/
inductive Arg where
  | str (s : String)
  | uint64 (n : Nat)
  | int (i : Int)

/-- Base-10 rendering of a Go `int`: a minus sign for negative values, then the
digits of the magnitude. -/
def fmtInt (i : Int) : String :=
  if i < 0 then "-" ++ Nat.repr i.natAbs else Nat.repr i.natAbs

/-- The Go type name `fmt` reports for an operand. -/
def Arg.typeName : Arg → String
  | .str _ => "string"
  | .uint64 _ => "uint64"
  | .int _ => "int"

/-- Default (`%v`) rendering of an operand: strings byte for byte, integers in
base 10. -/
def Arg.value : Arg → String
  | .str s => s
  | .uint64 n => Nat.repr n
  | .int i => fmtInt i

/-- Rendering of one operand under one verb.  `%v` prints the default form,
`%s` prints a string verbatim, `%d` an integer in base 10; a verb that does not
fit the operand gives the `%!verb(type=value)` diagnostic of `fmt`.  Flags,
widths and the remaining verbs do not occur in the program and fall under the
diagnostic case here. -/
def fmtVerb (verb : Char) (a : Arg) : String :=
  match a with
  | .str s =>
    if verb = 's' ∨ verb = 'v' then s
    else "%!" ++ verb.toString ++ "(string=" ++ s ++ ")"
  | .uint64 n =>
    if verb = 'd' ∨ verb = 'v' then Nat.repr n
    else "%!" ++ verb.toString ++ "(uint64=" ++ Nat.repr n ++ ")"
  | .int i =>
    if verb = 'd' ∨ verb = 'v' then fmtInt i
    else "%!" ++ verb.toString ++ "(int=" ++ fmtInt i ++ ")"

/-- The `type=value` list of operands left over after the format is consumed. -/
def extraArgs : List Arg → String
  | [] => ""
  | [a] => a.typeName ++ "=" ++ a.value
  | a :: b :: rest => a.typeName ++ "=" ++ a.value ++ ", " ++ extraArgs (b :: rest)

/-- The format interpreter of `fmt.Sprintf`: literal characters are copied,
`%%` prints a percent sign, every other `%verb` consumes the next operand.
Only the format string is interpreted; operands are data. -/
def doPrintf : List Char → List Arg → List Char
  | [], [] => []
  | [], a :: rest => ("%!(EXTRA " ++ extraArgs (a :: rest) ++ ")").data
  | c :: fmt, args =>
    if c = '%' then
      match fmt with
      | [] =>
        "%!(NOVERB)".data ++
          (match args with
          | [] => []
          | a :: rest => ("%!(EXTRA " ++ extraArgs (a :: rest) ++ ")").data)
      | verb :: fmt =>
        if verb = '%' then '%' :: doPrintf fmt args
        else
          match args with
          | [] => ("%!" ++ verb.toString ++ "(MISSING)").data ++ doPrintf fmt []
          | a :: rest => (fmtVerb verb a).data ++ doPrintf fmt rest
    else c :: doPrintf fmt args

/-- Model of `fmt.Sprintf`. -/
def Sprintf (format : String) (args : List Arg) : String :=
  ⟨doPrintf format.data args⟩

/-! ## package time -/

/-- A reading of the clock as `time.Now()` returns it: the Unix time in seconds
and the offset of the local zone in seconds east of UTC. -/
structure Time where
  sec : Int
  offset : Int

/-- The constant `secondsPerDay` of package time. -/
def secondsPerDay : Nat := 86400

/-- The constant `secondsPerHour` of package time. -/
def secondsPerHour : Nat := 3600

/-- The constant `secondsPerMinute` of package time. -/
def secondsPerMinute : Nat := 60

/-- The constant `unixToInternal + internalToAbsolute` of package time; it is a
whole number of days. -/
def unixToAbsolute : Int := 9223372028715321600

/-- Model of `Time.abs`: local seconds since the absolute epoch, as a `uint64`. -/
def Time.abs (t : Time) : Nat :=
  ((t.sec + t.offset + unixToAbsolute) % (2 ^ 64 : Int)).toNat

/-- Model of `absClock`: hour, minute and second within the day. -/
def absClock (abs : Nat) : Nat × Nat × Nat :=
  let sec := abs % secondsPerDay
  let hour := sec / secondsPerHour
  let sec := sec - hour * secondsPerHour
  let min := sec / secondsPerMinute
  let sec := sec - min * secondsPerMinute
  (hour, min, sec)

/-- Model of `appendInt` of package time: the decimal form of `x`, padded with
zeros on the left to at least `width` digits. -/
def appendInt (x : Int) (width : Nat) : List Char :=
  let digits := (Nat.repr x.natAbs).data
  (if x < 0 then ['-'] else []) ++ List.replicate (width - digits.length) '0' ++ digits

/-- Layout interpreter of `Time.Format` for the layout elements `15` (hour),
`04` (zero-padded minute) and `05` (zero-padded second); every other character
of the layout is copied. -/
def formatLayout (hour min sec : Nat) : List Char → List Char
  | [] => []
  | [c] => [c]
  | c :: d :: rest =>
    if c = '1' ∧ d = '5' then appendInt hour 2 ++ formatLayout hour min sec rest
    else if c = '0' ∧ d = '4' then appendInt min 2 ++ formatLayout hour min sec rest
    else if c = '0' ∧ d = '5' then appendInt sec 2 ++ formatLayout hour min sec rest
    else c :: formatLayout hour min sec (d :: rest)

/-- Model of `Time.Format`. -/
def Time.Format (t : Time) (layout : String) : String :=
  let (hour, min, sec) := absClock t.abs
  ⟨formatLayout hour min sec layout.data⟩

/-! ## The world the program runs in -/

/-- What a call of the program does to its environment, in order. -/
inductive Event where
  | write (text : String)
  | now
  | get (url : String)
  | readAll
  | close
  deriving DecidableEq

/-- The body stream of an HTTP response: the text `ioutil.ReadAll` obtains from
it and whether the read ends in an error instead of end-of-file. -/
structure Body where
  text : String
  readFails : Bool
  deriving DecidableEq

/-- An HTTP response as far as the program can observe it. -/
structure Response where
  StatusCode : Int
  Body : Body
  deriving DecidableEq

/-- The state of the response body the program holds: what is still unread and
how often the stream was read and closed. -/
structure BodyState where
  unread : String
  readFails : Bool
  reads : Nat
  closes : Nat
  deriving DecidableEq

/-- Everything the program reads or changes.  `clock k` is the reading the
`k`-th call of `time.Now()` returns; `Alloc`, `NumGoroutine`, `NumCPU`, `GOOS`
and `GOARCH` are the runtime values; `getResult` is what `http.Get` returns, an
error text or a response; `body` is the open response body, if any; `trace`
records the effects in order. -/
structure World where
  stdout : String
  clock : Nat → Time
  nowCalls : Nat
  Alloc : Nat
  NumGoroutine : Int
  NumCPU : Int
  GOOS : String
  GOARCH : String
  getResult : Except String Response
  body : Option BodyState
  trace : List Event

/-- Appends text to standard output. -/
def World.write (w : World) (text : String) : World :=
  { w with stdout := w.stdout ++ text, trace := w.trace ++ [Event.write text] }

/-- Model of `fmt.Printf`. -/
def Printf (format : String) (args : List Arg) (w : World) : World :=
  w.write (Sprintf format args)

/-- Model of `fmt.Println` with one string operand. -/
def Println (s : String) (w : World) : World :=
  w.write (s ++ "\n")

/-- Model of `time.Now()`: the next reading of the clock. -/
def timeNow (w : World) : Time × World :=
  (w.clock w.nowCalls, { w with nowCalls := w.nowCalls + 1, trace := w.trace ++ [Event.now] })

/-- Model of `http.Get`: on success the response body is open and unread. -/
def httpGet (url : String) (w : World) : Except String Response × World :=
  match w.getResult with
  | .error e => (.error e, { w with trace := w.trace ++ [Event.get url] })
  | .ok resp =>
    (.ok resp,
      { w with
        body := some ⟨resp.Body.text, resp.Body.readFails, 0, 0⟩,
        trace := w.trace ++ [Event.get url] })

/-- Model of `ioutil.ReadAll` on the response body: everything still unread,
and whether the read ended in an error. -/
def ReadAll (w : World) : (String × Bool) × World :=
  match w.body with
  | none => (("", true), { w with trace := w.trace ++ [Event.readAll] })
  | some b =>
    ((b.unread, b.readFails),
      { w with
        body := some { b with unread := "", reads := b.reads + 1 },
        trace := w.trace ++ [Event.readAll] })

/-- Model of `resp.Body.Close()`. -/
def BodyClose (w : World) : World :=
  { w with
    body := w.body.map fun b => { b with closes := b.closes + 1 },
    trace := w.trace ++ [Event.close] }

/-- Runs the deferred calls of a function at its return, last registered
first. -/
def runDeferred : List (World → World) → World → World
  | [], w => w
  | d :: ds, w => runDeferred ds (d w)

/-! ## helloworld.go -/

/-- Embedding of `Logger`. -/
def Logger (msg : String) (w : World) : World :=
  let (t, w) := timeNow w
  let now := t.Format "15:04:05"
  Printf "[%s] LOG: %s\n" [.str now, .str msg] w

/-- Embedding of `main`. -/
def main (w : World) : World :=
  let w := Logger "Hello World dari GoSmartPush v17.2!" w
  Logger "Sistem @dev_dayuwidayadi siap tempur!" w

/-! ## monitor.go -/

/-- The field of `runtime.MemStats` the program reads: `Alloc`, a `uint64`
count of bytes.  The program only divides it, so no wrap-around can occur. -/
structure MemStats where
  Alloc : Nat

/-- Model of `runtime.ReadMemStats`: a snapshot of the allocation counter. -/
def ReadMemStats (w : World) : MemStats :=
  ⟨w.Alloc⟩

/-- Embedding of `GetSystemStatus`. -/
def GetSystemStatus (w : World) : World :=
  let m := ReadMemStats w
  let w := Println "\n--- System Health Check ---" w
  let w := Printf "📦 Allocated Memory : %v MB\n" [.uint64 (m.Alloc / 1024 / 1024)] w
  let w := Printf "🧵 Total Goroutines : %v\n" [.int w.NumGoroutine] w
  let w := Printf "⚙️  CPU Cores        : %v\n" [.int w.NumCPU] w
  let w := Printf "💻 OS / Arch        : %s / %s\n" [.str w.GOOS, .str w.GOARCH] w
  Println "---------------------------" w

/-! ## network.go -/

/-- The body of `CheckNetwork` up to its return, with the deferred calls
registered on the way (most recent first). -/
def CheckNetworkBody (w : World) : World × List (World → World) :=
  let w := Println "\n--- Network Status ---" w
  let (res, w) := httpGet "https://api.ipify.org" w
  match res with
  | .error _ =>
    let w := Println "❌ Internet: Disconnected" w
    (w, [])
  | .ok _ =>
    let deferred := [BodyClose]
    let ((ip, _), w) := ReadAll w
    let w := Printf "🌍 Public IP  : %s\n" [.str ip] w
    let w := Println "✅ Internet   : Connected" w
    let w := Println "----------------------" w
    (w, deferred)

/-- Embedding of `CheckNetwork`: the body, then the deferred calls. -/
def CheckNetwork (w : World) : World :=
  let (w, deferred) := CheckNetworkBody w
  runDeferred deferred w

/-! ## Vocabulary of the statements -/

/-- A number below 100 as two decimal digits, `07` for seven. -/
def twoDigit (n : Nat) : String :=
  ⟨[Char.ofNat (48 + n / 10), Char.ofNat (48 + n % 10)]⟩

/-- The text standard output gained between two worlds. -/
def written (before after : World) : String :=
  ⟨after.stdout.data.drop before.stdout.data.length⟩

/-- A clock that reads 23:59:59 UTC at its first call and one second more at
each later call. -/
def sampleClock (k : Nat) : Time := ⟨86399 + k, 0⟩

/-- A world with empty output, 2,097,151 bytes allocated, one goroutine, eight
cores on linux/amd64, and an endpoint that answers `203.0.113.5`. -/
def sampleWorld : World where
  stdout := ""
  clock := sampleClock
  nowCalls := 0
  Alloc := 2097151
  NumGoroutine := 1
  NumCPU := 8
  GOOS := "linux"
  GOARCH := "amd64"
  getResult := .ok ⟨200, ⟨"203.0.113.5", false⟩⟩
  body := none
  trace := []

/-- The reading lies in the span package time counts in its `uint64` of
absolute seconds, so that `Time.abs` does not wrap around. -/
def Time.InRange (t : Time) : Prop :=
  0 ≤ t.sec + t.offset + unixToAbsolute ∧ t.sec + t.offset + unixToAbsolute < 2 ^ 64

instance (t : Time) : Decidable t.InRange := by
  unfold Time.InRange; infer_instance

/-- A clock in a zone seven hours east of UTC: it reads 16:53:20 local time
(09:53:20 UTC) at its first call and one second more at each later call. -/
def jakartaClock (k : Nat) : Time := ⟨1762250000 + k, 25200⟩

/-- The sample world with the clock seven hours east of UTC. -/
def jakartaWorld : World :=
  { sampleWorld with clock := jakartaClock }

/-- A clock across the end of summer time (Europe/Berlin, 25 October 2026):
the first reading is 02:59:59 at offset +2h, the second, one second later, is
02:00:00 at offset +1h. -/
def fallBackClock (k : Nat) : Time :=
  if k = 0 then ⟨1792889999, 7200⟩ else ⟨1792890000, 3600⟩

/-- The sample world with the clock across the end of summer time. -/
def fallBackWorld : World :=
  { sampleWorld with clock := fallBackClock }

/-- The sample world with an unreachable endpoint. -/
def offlineWorld : World :=
  { sampleWorld with getResult := .error "dial tcp: lookup api.ipify.org: no such host" }

/-- The sample world with an endpoint whose body is the word `Disconnected`. -/
def echoWorld : World :=
  { sampleWorld with getResult := .ok ⟨200, ⟨"Disconnected", false⟩⟩ }

/-! ## Lines of a text -/

theorem splitLines_ne_nil (s : List Char) : splitLines s ≠ [] := by
  cases s with
  | nil => simp [splitLines]
  | cons c cs =>
    unfold splitLines
    split
    · simp
    · split <;> simp

theorem splitLines_of_not_mem (s : List Char) (h : '\n' ∉ s) : splitLines s = [s] := by
  induction s with
  | nil => rfl
  | cons c cs ih =>
    have hc : c ≠ '\n' := fun e => h (by simp [e])
    have hcs : '\n' ∉ cs := fun e => h (by simp [e])
    simp [splitLines, hc, ih hcs]

theorem splitLines_append (a b : List Char) :
    splitLines (a ++ '\n' :: b) = splitLines a ++ splitLines b := by
  induction a with
  | nil => simp [splitLines]
  | cons c cs ih =>
    by_cases hc : c = '\n'
    · simp [splitLines, hc, ih]
    · cases h : splitLines cs with
      | nil => exact absurd h (splitLines_ne_nil cs)
      | cons l ls => simp [splitLines, hc, ih, h]

theorem outputLines_append (a rest : String) :
    outputLines (a ++ "\n" ++ rest) = outputLines a ++ outputLines rest := by
  have h : (a ++ "\n" ++ rest).data = a.data ++ '\n' :: rest.data := by simp
  simp [outputLines, h, splitLines_append]

theorem outputLines_line (a rest : String) (h : NoLineBreak a) :
    outputLines (a ++ "\n" ++ rest) = a :: outputLines rest := by
  rw [outputLines_append]
  simp [outputLines, splitLines_of_not_mem a.data h]

theorem outputLines_empty : outputLines "" = [""] := by decide

theorem noLineBreak_append (a b : String) (ha : NoLineBreak a) (hb : NoLineBreak b) :
    NoLineBreak (a ++ b) := by
  simp only [NoLineBreak, String.data_append, List.mem_append, not_or]
  exact ⟨ha, hb⟩

theorem toDigitsCore_no_lf (fuel n : Nat) (ds : List Char) (h : '\n' ∉ ds) :
    '\n' ∉ Nat.toDigitsCore 10 fuel n ds := by
  induction fuel generalizing n ds with
  | zero => simpa [Nat.toDigitsCore] using h
  | succ f ih =>
    have hd : (n % 10).digitChar ≠ '\n' := by
      have : n % 10 < 10 := Nat.mod_lt _ (by decide)
      interval_cases (n % 10) <;> decide
    have h' : '\n' ∉ (n % 10).digitChar :: ds := by
      simp only [List.mem_cons, not_or]
      exact ⟨fun e => hd e.symm, h⟩
    simp only [Nat.toDigitsCore]
    split
    · exact h'
    · exact ih _ _ h'

theorem noLineBreak_repr (n : Nat) : NoLineBreak (Nat.repr n) := by
  simp only [NoLineBreak, Nat.repr, Nat.toDigits, List.asString]
  exact toDigitsCore_no_lf _ _ _ (by simp)

theorem noLineBreak_fmtInt (i : Int) : NoLineBreak (fmtInt i) := by
  unfold fmtInt
  split
  · exact noLineBreak_append _ _ (by decide) (noLineBreak_repr _)
  · exact noLineBreak_repr _

theorem noLineBreak_twoDigit (n : Nat) (h : n < 100) : NoLineBreak (twoDigit n) := by
  interval_cases n <;> decide

/-! ## Occurrences of a text -/

theorem infix_of_head_not_mem {c : Char} {p pre s : List Char} (hc : c ∉ pre)
    (h : c :: p <:+: pre ++ s) : c :: p <:+: s := by
  induction pre with
  | nil => simpa using h
  | cons x xs ih =>
    rw [List.cons_append, List.infix_cons_iff] at h
    rcases h with h | h
    · exfalso
      obtain ⟨t, ht⟩ := h
      simp only [List.cons_append, List.cons.injEq] at ht
      exact hc (by simp [ht.1])
    · exact ih (fun e => hc (by simp [e])) h

theorem prefix_of_sep_not_mem {sep : Char} {pat a b : List Char} (hs : sep ∉ pat)
    (h : pat <+: a ++ sep :: b) : pat <+: a := by
  rcases List.prefix_or_prefix_of_prefix h (List.prefix_append a (sep :: b)) with h1 | h1
  · exact h1
  · obtain ⟨t, rfl⟩ := h1
    rw [List.prefix_append_right_inj] at h
    cases t with
    | nil => simp
    | cons x xs =>
      exfalso
      obtain ⟨u, hu⟩ := h
      simp only [List.cons_append, List.cons.injEq] at hu
      exact hs (by simp [hu.1])

theorem infix_split_of_sep_not_mem {sep : Char} {pat a b : List Char} (hs : sep ∉ pat)
    (h : pat <:+: a ++ sep :: b) : pat <:+: a ∨ pat <:+: b := by
  induction a with
  | nil =>
    rw [List.nil_append, List.infix_cons_iff] at h
    rcases h with h | h
    · left
      exact (prefix_of_sep_not_mem (a := []) hs (by simpa using h)).isInfix
    · exact Or.inr h
  | cons x xs ih =>
    rw [List.cons_append, List.infix_cons_iff] at h
    rcases h with h | h
    · left
      exact (prefix_of_sep_not_mem (a := x :: xs) hs (by simpa using h)).isInfix
    · rcases ih h with h' | h'
      · exact Or.inl (h'.trans (List.suffix_cons x xs).isInfix)
      · exact Or.inr h'

/-! ## What each call appends to standard output -/

theorem written_eq (w w' : World) (x : String) (h : w'.stdout = w.stdout ++ x) :
    written w w' = x := by
  apply String.ext
  simp [written, h]

theorem appendInt_two (n : Nat) (h : n < 100) : appendInt (n : Int) 2 = (twoDigit n).data := by
  interval_cases n <;> rfl

theorem formatLayout_clock (h m s : Nat) :
    formatLayout h m s "15:04:05".data =
      appendInt h 2 ++ ':' :: (appendInt m 2 ++ ':' :: appendInt s 2) := by
  simp [formatLayout]

theorem Format_clock (t : Time) :
    t.Format "15:04:05" =
      twoDigit (t.abs % 86400 / 3600) ++ ":" ++ twoDigit (t.abs % 3600 / 60) ++ ":" ++
        twoDigit (t.abs % 60) := by
  have h1 : t.abs % 86400 / 3600 < 100 := by omega
  have h2 : t.abs % 3600 / 60 < 100 := by omega
  have h3 : t.abs % 60 < 100 := by omega
  have e2 : (t.abs % 86400 - t.abs % 86400 / 3600 * 3600) / 60 = t.abs % 3600 / 60 := by omega
  have e3 : t.abs % 86400 - t.abs % 86400 / 3600 * 3600 -
      (t.abs % 86400 - t.abs % 86400 / 3600 * 3600) / 60 * 60 = t.abs % 60 := by omega
  apply String.ext
  simp only [Time.Format, absClock, secondsPerDay, secondsPerHour, secondsPerMinute]
  rw [e3, e2, formatLayout_clock, appendInt_two _ h1, appendInt_two _ h2, appendInt_two _ h3]
  simp

theorem noLineBreak_Format (t : Time) : NoLineBreak (t.Format "15:04:05") := by
  rw [Format_clock]
  have h1 : t.abs % 86400 / 3600 < 100 := by omega
  have h2 : t.abs % 3600 / 60 < 100 := by omega
  have h3 : t.abs % 60 < 100 := by omega
  exact noLineBreak_append _ _ (noLineBreak_append _ _ (noLineBreak_append _ _
    (noLineBreak_append _ _ (noLineBreak_twoDigit _ h1) (by decide))
    (noLineBreak_twoDigit _ h2)) (by decide)) (noLineBreak_twoDigit _ h3)

theorem Logger_stdout (msg : String) (w : World) :
    (Logger msg w).stdout =
      w.stdout ++ ("[" ++ (w.clock w.nowCalls).Format "15:04:05" ++ "] LOG: " ++ msg ++ "\n") := by
  apply String.ext
  simp [Logger, timeNow, Printf, World.write, Sprintf, doPrintf, fmtVerb]

theorem Logger_clock (msg : String) (w : World) :
    (Logger msg w).clock = w.clock ∧ (Logger msg w).nowCalls = w.nowCalls + 1 := by
  simp [Logger, timeNow, Printf, World.write]

theorem GetSystemStatus_stdout (w : World) :
    (GetSystemStatus w).stdout =
      w.stdout ++ ("\n--- System Health Check ---\n📦 Allocated Memory : " ++
        Nat.repr (w.Alloc / 1024 / 1024) ++ " MB\n🧵 Total Goroutines : " ++
        fmtInt w.NumGoroutine ++ "\n⚙️  CPU Cores        : " ++ fmtInt w.NumCPU ++
        "\n💻 OS / Arch        : " ++ w.GOOS ++ " / " ++ w.GOARCH ++
        "\n---------------------------\n") := by
  apply String.ext
  simp [GetSystemStatus, ReadMemStats, Println, Printf, World.write, Sprintf, doPrintf,
    fmtVerb]

theorem CheckNetwork_ok_stdout (w : World) (resp : Response) :
    (CheckNetwork { w with getResult := .ok resp }).stdout =
      w.stdout ++ ("\n--- Network Status ---\n🌍 Public IP  : " ++ resp.Body.text ++
        "\n✅ Internet   : Connected\n----------------------\n") := by
  apply String.ext
  simp [CheckNetwork, CheckNetworkBody, httpGet, ReadAll, runDeferred, BodyClose, Println,
    Printf, World.write, Sprintf, doPrintf, fmtVerb]

theorem CheckNetwork_error_stdout (w : World) (e : String) :
    (CheckNetwork { w with getResult := .error e }).stdout =
      w.stdout ++ "\n--- Network Status ---\n❌ Internet: Disconnected\n" := by
  apply String.ext
  simp [CheckNetwork, CheckNetworkBody, httpGet, runDeferred, Println, World.write]

/-! ## helloworld.go: Logger -/

theorem abs_of_inRange (t : Time) (h : t.InRange) :
    (t.abs : Int) = t.sec + t.offset + 9223372028715321600 := by
  obtain ⟨h0, h1⟩ := h
  unfold Time.abs
  rw [Int.emod_eq_of_lt h0 h1]
  exact Int.toNat_of_nonneg h0

/-- C1: for every message `M` and every clock reading, `Logger M` appends to
standard output exactly `[HH:MM:SS] LOG: M` and a line feed, where `HH`, `MM`
and `SS` are an hour below 24, a minute below 60 and a second below 60, each as
two zero-padded digits, and together they are the second of the local day of
the reading, Unix seconds plus zone offset modulo 86400 (for every reading in
the span package time counts); `M` is copied verbatim, whatever characters it
holds. -/
theorem Logger_writes_timestamped_line (M : String) (w : World) :
    ∃ hh mm ss : Nat, hh < 24 ∧ mm < 60 ∧ ss < 60 ∧
      (Logger M w).stdout =
        w.stdout ++ ("[" ++ twoDigit hh ++ ":" ++ twoDigit mm ++ ":" ++ twoDigit ss ++
          "] LOG: " ++ M ++ "\n") ∧
      ((w.clock w.nowCalls).InRange →
        ((w.clock w.nowCalls).sec + (w.clock w.nowCalls).offset) % 86400 =
          (hh : Int) * 3600 + (mm : Int) * 60 + (ss : Int)) := by
  refine ⟨(w.clock w.nowCalls).abs % 86400 / 3600, (w.clock w.nowCalls).abs % 3600 / 60,
    (w.clock w.nowCalls).abs % 60, by omega, by omega, by omega, ?_, ?_⟩
  · rw [Logger_stdout, Format_clock]
    simp [String.append_assoc]
  · intro h
    have habs := abs_of_inRange _ h
    omega

/-- C1 at a reading seven hours east of UTC, 09:53:20 UTC: the reading is in
range and the fields printed are those of 16:53:20, the local time. -/
theorem Logger_writes_local_time_sample :
    (jakartaWorld.clock jakartaWorld.nowCalls).InRange ∧
      ((jakartaWorld.clock jakartaWorld.nowCalls).sec +
          (jakartaWorld.clock jakartaWorld.nowCalls).offset) % 86400 =
        16 * 3600 + 53 * 60 + 20 ∧
      ∃ hh mm ss : Nat, hh < 24 ∧ mm < 60 ∧ ss < 60 ∧
        (Logger "Hello" jakartaWorld).stdout =
          jakartaWorld.stdout ++ ("[" ++ twoDigit hh ++ ":" ++ twoDigit mm ++ ":" ++
            twoDigit ss ++ "] LOG: " ++ "Hello" ++ "\n") ∧
        ((jakartaWorld.clock jakartaWorld.nowCalls).sec +
            (jakartaWorld.clock jakartaWorld.nowCalls).offset) % 86400 =
          (hh : Int) * 3600 + (mm : Int) * 60 + (ss : Int) :=
  ⟨by decide, by decide,
    match Logger_writes_timestamped_line "Hello" jakartaWorld with
    | ⟨hh, mm, ss, h1, h2, h3, hout, hloc⟩ => ⟨hh, mm, ss, h1, h2, h3, hout, hloc (by decide)⟩⟩

/-! ## monitor.go: GetSystemStatus -/

/-- C2: the megabyte figure `GetSystemStatus` prints, computed as
`Alloc/1024/1024`, is the truncating quotient `Alloc / 1048576` in decimal;
1,048,575 bytes print `0 MB`, 2,097,151 bytes print `1 MB` and 2,097,152 bytes
print `2 MB`. -/
theorem GetSystemStatus_prints_truncated_megabytes (w : World) :
    (GetSystemStatus w).stdout =
        w.stdout ++ ("\n--- System Health Check ---\n📦 Allocated Memory : " ++
          Nat.repr (w.Alloc / 1048576) ++ " MB\n🧵 Total Goroutines : " ++
          fmtInt w.NumGoroutine ++ "\n⚙️  CPU Cores        : " ++ fmtInt w.NumCPU ++
          "\n💻 OS / Arch        : " ++ w.GOOS ++ " / " ++ w.GOARCH ++
          "\n---------------------------\n") ∧
      (∃ rest, (GetSystemStatus { w with Alloc := 1048575 }).stdout =
        w.stdout ++ ("\n--- System Health Check ---\n📦 Allocated Memory : 0 MB\n" ++ rest)) ∧
      (∃ rest, (GetSystemStatus { w with Alloc := 2097151 }).stdout =
        w.stdout ++ ("\n--- System Health Check ---\n📦 Allocated Memory : 1 MB\n" ++ rest)) ∧
      (∃ rest, (GetSystemStatus { w with Alloc := 2097152 }).stdout =
        w.stdout ++ ("\n--- System Health Check ---\n📦 Allocated Memory : 2 MB\n" ++ rest)) := by
  have hdiv : ∀ a : Nat, a / 1024 / 1024 = a / 1048576 := fun a => by
    rw [Nat.div_div_eq_div_mul]
  have hsplit : ∀ (v : World) (a : Nat) (d line : String), Nat.repr (a / 1024 / 1024) = d →
      "\n--- System Health Check ---\n📦 Allocated Memory : " ++ d ++ " MB\n" = line →
      ∃ rest, (GetSystemStatus { v with Alloc := a }).stdout = v.stdout ++ (line ++ rest) := by
    intro v a d line hd hline
    refine ⟨"🧵 Total Goroutines : " ++ fmtInt v.NumGoroutine ++ "\n⚙️  CPU Cores        : " ++
      fmtInt v.NumCPU ++ "\n💻 OS / Arch        : " ++ v.GOOS ++ " / " ++ v.GOARCH ++
      "\n---------------------------\n", ?_⟩
    rw [GetSystemStatus_stdout, ← hline]
    simp only [hd]
    apply String.ext
    simp only [String.data_append, List.append_assoc]
    rfl
  refine ⟨?_, hsplit w 1048575 "0" _ (by decide) (by decide),
    hsplit w 2097151 "1" _ (by decide) (by decide),
    hsplit w 2097152 "2" _ (by decide) (by decide)⟩
  rw [GetSystemStatus_stdout, hdiv]

/-- C7, as the claim states it, fails: in the sample world the block has four
lines between its borders and the line `OS / Arch` carries both the operating
system and the architecture. -/
theorem GetSystemStatus_os_arch_share_line :
    outputLines (written sampleWorld (GetSystemStatus sampleWorld)) =
        ["", "--- System Health Check ---", "📦 Allocated Memory : 1 MB",
          "🧵 Total Goroutines : 1", "⚙️  CPU Cores        : 8",
          "💻 OS / Arch        : linux / amd64", "---------------------------", ""] ∧
      ¬ ∀ l ∈ outputLines (written sampleWorld (GetSystemStatus sampleWorld)),
          ¬ (Contains l sampleWorld.GOOS ∧ Contains l sampleWorld.GOARCH) := by
  have hlines : outputLines (written sampleWorld (GetSystemStatus sampleWorld)) =
      ["", "--- System Health Check ---", "📦 Allocated Memory : 1 MB",
        "🧵 Total Goroutines : 1", "⚙️  CPU Cores        : 8",
        "💻 OS / Arch        : linux / amd64", "---------------------------", ""] := by
    decide
  refine ⟨hlines, fun h => ?_⟩
  refine h "💻 OS / Arch        : linux / amd64" (by rw [hlines]; simp) ⟨?_, ?_⟩
  · exact ⟨"💻 OS / Arch        : ".data, " / amd64".data, by decide⟩
  · exact ⟨"💻 OS / Arch        : linux / ".data, [], by decide⟩

/-- C7, amended: for every runtime snapshot whose OS and architecture
identifiers hold no line feed, `GetSystemStatus` appends a blank line, the
header border, one line for the megabytes, one for the goroutine count, one
for the core count (the decimal form of `NumCPU`, nothing else), one line
carrying both the OS and the architecture, and the footer border. -/
theorem GetSystemStatus_block (w : World) (hos : NoLineBreak w.GOOS)
    (harch : NoLineBreak w.GOARCH) :
    (GetSystemStatus w).stdout = w.stdout ++ written w (GetSystemStatus w) ∧
      outputLines (written w (GetSystemStatus w)) =
        ["", "--- System Health Check ---",
          "📦 Allocated Memory : " ++ Nat.repr (w.Alloc / 1024 / 1024) ++ " MB",
          "🧵 Total Goroutines : " ++ fmtInt w.NumGoroutine,
          "⚙️  CPU Cores        : " ++ fmtInt w.NumCPU,
          "💻 OS / Arch        : " ++ w.GOOS ++ " / " ++ w.GOARCH,
          "---------------------------", ""] := by
  have hw := written_eq w (GetSystemStatus w) _ (GetSystemStatus_stdout w)
  have hshape : w.stdout ++ ("\n--- System Health Check ---\n📦 Allocated Memory : " ++
        Nat.repr (w.Alloc / 1024 / 1024) ++ " MB\n🧵 Total Goroutines : " ++
        fmtInt w.NumGoroutine ++ "\n⚙️  CPU Cores        : " ++ fmtInt w.NumCPU ++
        "\n💻 OS / Arch        : " ++ w.GOOS ++ " / " ++ w.GOARCH ++
        "\n---------------------------\n") =
      w.stdout ++ ("" ++ "\n" ++ ("--- System Health Check ---" ++ "\n" ++
        ("📦 Allocated Memory : " ++ Nat.repr (w.Alloc / 1024 / 1024) ++ " MB" ++ "\n" ++
        ("🧵 Total Goroutines : " ++ fmtInt w.NumGoroutine ++ "\n" ++
        ("⚙️  CPU Cores        : " ++ fmtInt w.NumCPU ++ "\n" ++
        ("💻 OS / Arch        : " ++ w.GOOS ++ " / " ++ w.GOARCH ++ "\n" ++
        ("---------------------------" ++ "\n" ++ ""))))))) := by
    apply String.ext
    simp
  have hw2 := written_eq w (GetSystemStatus w) _ ((GetSystemStatus_stdout w).trans hshape)
  refine ⟨?_, ?_⟩
  · rw [hw]
    exact GetSystemStatus_stdout w
  · rw [hw2, outputLines_line _ _ (by decide), outputLines_line _ _ (by decide),
      outputLines_line _ _ (noLineBreak_append _ _ (noLineBreak_append _ _ (by decide)
        (noLineBreak_repr _)) (by decide)),
      outputLines_line _ _ (noLineBreak_append _ _ (by decide) (noLineBreak_fmtInt _)),
      outputLines_line _ _ (noLineBreak_append _ _ (by decide) (noLineBreak_fmtInt _)),
      outputLines_line _ _ (noLineBreak_append _ _ (noLineBreak_append _ _
        (noLineBreak_append _ _ (by decide) hos) (by decide)) harch),
      outputLines_line _ _ (by decide), outputLines_empty]

/-- C7, amended, at the sample world: its identifiers `linux` and `amd64` hold
no line feed and the block has the seven lines stated. -/
theorem GetSystemStatus_block_sample :
    NoLineBreak sampleWorld.GOOS ∧ NoLineBreak sampleWorld.GOARCH ∧
      outputLines (written sampleWorld (GetSystemStatus sampleWorld)) =
        ["", "--- System Health Check ---",
          "📦 Allocated Memory : " ++ Nat.repr (sampleWorld.Alloc / 1024 / 1024) ++ " MB",
          "🧵 Total Goroutines : " ++ fmtInt sampleWorld.NumGoroutine,
          "⚙️  CPU Cores        : " ++ fmtInt sampleWorld.NumCPU,
          "💻 OS / Arch        : " ++ sampleWorld.GOOS ++ " / " ++ sampleWorld.GOARCH,
          "---------------------------", ""] :=
  ⟨by decide, by decide,
    (GetSystemStatus_block sampleWorld (by decide) (by decide)).2⟩

/-! ## network.go: CheckNetwork -/

/-- C3, as the claim states it, fails: with the endpoint unreachable the call
writes a blank line and the header `--- Network Status ---` before the line
`❌ Internet: Disconnected`, so that line is not the whole output. -/
theorem CheckNetwork_offline_prints_header :
    (CheckNetwork offlineWorld).stdout =
        "\n--- Network Status ---\n❌ Internet: Disconnected\n" ∧
      (CheckNetwork offlineWorld).stdout ≠ "❌ Internet: Disconnected\n" := by
  decide

/-- C3, amended: for every error of the GET, `CheckNetwork` appends exactly a
blank line, the header `--- Network Status ---` and the line
`❌ Internet: Disconnected`; nothing follows that line, and the text holds
neither `Public IP` nor `Connected`. -/
theorem CheckNetwork_error_output (w : World) (e : String) :
    (CheckNetwork { w with getResult := .error e }).stdout =
        w.stdout ++ "\n--- Network Status ---\n❌ Internet: Disconnected\n" ∧
      outputLines (written w (CheckNetwork { w with getResult := .error e })) =
        ["", "--- Network Status ---", "❌ Internet: Disconnected", ""] ∧
      ¬ Contains (written w (CheckNetwork { w with getResult := .error e })) "Public IP" ∧
      ¬ Contains (written w (CheckNetwork { w with getResult := .error e })) "Connected" := by
  have hw := written_eq w _ _ (CheckNetwork_error_stdout w e)
  rw [hw]
  exact ⟨CheckNetwork_error_stdout w e, by decide, by decide, by decide⟩

/-- C4, as the claim states it, fails: an endpoint may answer with a body that
itself reads `Disconnected`, and then the output of the success path contains
that word. -/
theorem CheckNetwork_echoes_Disconnected :
    NoLineBreak "Disconnected" ∧
      (CheckNetwork echoWorld).stdout =
        "\n--- Network Status ---\n🌍 Public IP  : Disconnected\n" ++
          "✅ Internet   : Connected\n----------------------\n" ∧
      Contains (CheckNetwork echoWorld).stdout "Disconnected" := by
  refine ⟨by decide, by decide, ?_⟩
  exact ⟨"\n--- Network Status ---\n🌍 Public IP  : ".data,
    "\n✅ Internet   : Connected\n----------------------\n".data, by decide⟩

/-- C4, amended: for every response whose body text `B` holds no line feed,
`CheckNetwork` appends a blank line, the header, the line `🌍 Public IP  : B`
with `B` in full, immediately followed by the confirmation line, which contains
`Connected`, and the footer; the text contains `Disconnected` only if `B`
itself does. -/
theorem CheckNetwork_success_output (w : World) (resp : Response)
    (hB : NoLineBreak resp.Body.text) :
    (CheckNetwork { w with getResult := .ok resp }).stdout =
        w.stdout ++ written w (CheckNetwork { w with getResult := .ok resp }) ∧
      outputLines (written w (CheckNetwork { w with getResult := .ok resp })) =
        ["", "--- Network Status ---", "🌍 Public IP  : " ++ resp.Body.text,
          "✅ Internet   : Connected", "----------------------", ""] ∧
      Contains ("🌍 Public IP  : " ++ resp.Body.text) resp.Body.text ∧
      Contains "✅ Internet   : Connected" "Connected" ∧
      (¬ Contains resp.Body.text "Disconnected" →
        ¬ Contains (written w (CheckNetwork { w with getResult := .ok resp }))
          "Disconnected") := by
  have hw := written_eq w _ _ (CheckNetwork_ok_stdout w resp)
  have hshape : "\n--- Network Status ---\n🌍 Public IP  : " ++ resp.Body.text ++
        "\n✅ Internet   : Connected\n----------------------\n" =
      "" ++ "\n" ++ ("--- Network Status ---" ++ "\n" ++
        ("🌍 Public IP  : " ++ resp.Body.text ++ "\n" ++
        ("✅ Internet   : Connected" ++ "\n" ++ ("----------------------" ++ "\n" ++ "")))) := by
    apply String.ext
    simp
  refine ⟨?_, ?_, ?_, ?_, ?_⟩
  · rw [hw]
    exact CheckNetwork_ok_stdout w resp
  · rw [hw, hshape, outputLines_line _ _ (by decide), outputLines_line _ _ (by decide),
      outputLines_line _ _ (noLineBreak_append _ _ (by decide) hB),
      outputLines_line _ _ (by decide), outputLines_line _ _ (by decide), outputLines_empty]
  · exact ⟨"🌍 Public IP  : ".data, [], by simp⟩
  · exact ⟨"✅ Internet   : ".data, [], by decide⟩
  · intro hno hcontains
    rw [hw] at hcontains
    have hdata : ("\n--- Network Status ---\n🌍 Public IP  : " ++ resp.Body.text ++
        "\n✅ Internet   : Connected\n----------------------\n").data =
        ("\n--- Network Status ---\n🌍 Public IP  : ".data ++ resp.Body.text.data) ++
          '\n' :: "✅ Internet   : Connected\n----------------------\n".data := by
      simp
    unfold Contains at hcontains hno
    rw [hdata] at hcontains
    rcases infix_split_of_sep_not_mem (by decide) hcontains with h | h
    · exact hno (infix_of_head_not_mem (c := 'D') (p := "isconnected".data) (by decide) h)
    · revert h
      decide

/-- C4, amended, at the sample world: the body `203.0.113.5` holds no line
feed and the output has the six segments stated. -/
theorem CheckNetwork_success_output_sample :
    NoLineBreak "203.0.113.5" ∧
      outputLines (written sampleWorld
        (CheckNetwork { sampleWorld with getResult := .ok ⟨200, ⟨"203.0.113.5", false⟩⟩ })) =
        ["", "--- Network Status ---", "🌍 Public IP  : " ++ "203.0.113.5",
          "✅ Internet   : Connected", "----------------------", ""] :=
  ⟨by decide,
    (CheckNetwork_success_output sampleWorld ⟨200, ⟨"203.0.113.5", false⟩⟩ (by decide)).2.1⟩

/-- C5: on the success path the response body is read once and closed exactly
once, and the close is the last effect of the call, after the read and after
every write; on the failure path the body is neither read nor closed. -/
theorem CheckNetwork_closes_body_once (w : World) (resp : Response) (e : String) :
    ((CheckNetwork { w with getResult := .ok resp }).trace =
        w.trace ++
          [Event.write "\n--- Network Status ---\n", Event.get "https://api.ipify.org",
            Event.readAll, Event.write ("🌍 Public IP  : " ++ resp.Body.text ++ "\n"),
            Event.write "✅ Internet   : Connected\n", Event.write "----------------------\n",
            Event.close] ∧
      (CheckNetwork { w with getResult := .ok resp }).body =
        some ⟨"", resp.Body.readFails, 1, 1⟩) ∧
    ((CheckNetwork { w with getResult := .error e }).trace =
        w.trace ++
          [Event.write "\n--- Network Status ---\n", Event.get "https://api.ipify.org",
            Event.write "❌ Internet: Disconnected\n"] ∧
      (CheckNetwork { w with getResult := .error e }).body = w.body) := by
  have hfmt : Sprintf "🌍 Public IP  : %s\n" [Arg.str resp.Body.text] =
      "🌍 Public IP  : " ++ resp.Body.text ++ "\n" := by
    apply String.ext
    simp [Sprintf, doPrintf, fmtVerb]
  refine ⟨⟨?_, ?_⟩, ?_, ?_⟩
  · simp only [CheckNetwork, CheckNetworkBody, httpGet, ReadAll, runDeferred, BodyClose,
      Println, Printf, World.write, hfmt]
    simp
  · simp [CheckNetwork, CheckNetworkBody, httpGet, ReadAll, runDeferred, BodyClose, Println,
      Printf, World.write]
  · simp only [CheckNetwork, CheckNetworkBody, httpGet, runDeferred, Println, World.write]
    simp
  · simp [CheckNetwork, CheckNetworkBody, httpGet, runDeferred, Println, World.write]

/-- C6: the output of `CheckNetwork` does not depend on the status code: two
responses with the same body give the same output, which reports the body as
the public IP and prints the connected line. -/
theorem CheckNetwork_ignores_status (w : World) (r1 r2 : Response) (h : r1.Body = r2.Body) :
    (CheckNetwork { w with getResult := .ok r1 }).stdout =
        (CheckNetwork { w with getResult := .ok r2 }).stdout ∧
      (CheckNetwork { w with getResult := .ok r1 }).stdout =
        w.stdout ++ ("\n--- Network Status ---\n🌍 Public IP  : " ++ r1.Body.text ++
          "\n✅ Internet   : Connected\n----------------------\n") := by
  refine ⟨?_, CheckNetwork_ok_stdout w r1⟩
  rw [CheckNetwork_ok_stdout, CheckNetwork_ok_stdout, h]

/-- C6 at a 500 response and a 200 response that carry the same body: both are
reported as connected, with the body printed as the public IP. -/
theorem CheckNetwork_ignores_status_500 :
    (⟨500, ⟨"Internal Server Error", false⟩⟩ : Response).Body =
        (⟨200, ⟨"Internal Server Error", false⟩⟩ : Response).Body ∧
      (CheckNetwork
          { sampleWorld with getResult := .ok ⟨500, ⟨"Internal Server Error", false⟩⟩ }).stdout =
        (CheckNetwork
          { sampleWorld with getResult := .ok ⟨200, ⟨"Internal Server Error", false⟩⟩ }).stdout ∧
      (CheckNetwork
          { sampleWorld with getResult := .ok ⟨500, ⟨"Internal Server Error", false⟩⟩ }).stdout =
        sampleWorld.stdout ++ ("\n--- Network Status ---\n🌍 Public IP  : " ++
          "Internal Server Error" ++ "\n✅ Internet   : Connected\n----------------------\n") :=
  ⟨rfl, CheckNetwork_ignores_status sampleWorld ⟨500, ⟨"Internal Server Error", false⟩⟩
    ⟨200, ⟨"Internal Server Error", false⟩⟩ rfl⟩

/-- C8, as the claim states it, fails: in the sample world no output line is
`✅ Internet: Connected`; the confirmation line has three spaces between
`Internet` and the colon. -/
theorem CheckNetwork_confirmation_spelling :
    "✅ Internet: Connected" ∉ outputLines (CheckNetwork sampleWorld).stdout ∧
      "✅ Internet   : Connected" ∈ outputLines (CheckNetwork sampleWorld).stdout := by
  decide

/-- C8, amended: for every success response the output of `CheckNetwork` ends
with the confirmation line `✅ Internet   : Connected` (three spaces before the
colon), followed only by the footer border. -/
theorem CheckNetwork_confirmation_line (w : World) (resp : Response) :
    ∃ front : List String,
      outputLines (written w (CheckNetwork { w with getResult := .ok resp })) =
        front ++ ["✅ Internet   : Connected", "----------------------", ""] := by
  have hw := written_eq w _ _ (CheckNetwork_ok_stdout w resp)
  have hshape : "\n--- Network Status ---\n🌍 Public IP  : " ++ resp.Body.text ++
        "\n✅ Internet   : Connected\n----------------------\n" =
      ("\n--- Network Status ---\n🌍 Public IP  : " ++ resp.Body.text) ++ "\n" ++
        ("✅ Internet   : Connected" ++ "\n" ++ ("----------------------" ++ "\n" ++ "")) := by
    apply String.ext
    simp
  refine ⟨outputLines ("\n--- Network Status ---\n🌍 Public IP  : " ++ resp.Body.text), ?_⟩
  rw [hw, hshape, outputLines_append, outputLines_line _ _ (by decide),
    outputLines_line _ _ (by decide), outputLines_empty]

/-! ## helloworld.go: two calls of Logger, and main -/

/-- C9, as the claim states it, fails: a message that holds a line feed makes
its call print two lines, so two calls give three lines. -/
theorem Logger_multiline_message :
    outputLines (Logger "B" (Logger "x\ny" sampleWorld)).stdout =
        ["[23:59:59] LOG: x", "y", "[00:00:00] LOG: B", ""] ∧
      ¬ ∃ l1 l2, outputLines (Logger "B" (Logger "x\ny" sampleWorld)).stdout = [l1, l2, ""] := by
  have h : outputLines (Logger "B" (Logger "x\ny" sampleWorld)).stdout =
      ["[23:59:59] LOG: x", "y", "[00:00:00] LOG: B", ""] := by decide
  refine ⟨h, ?_⟩
  rintro ⟨l1, l2, h2⟩
  rw [h] at h2
  simp at h2

/-- C9, amended: for all messages `A` and `B`, the output of `Logger A` followed
by `Logger B` is the text `Logger A` alone prints at the first clock reading
followed by the text `Logger B` alone prints at the second, nothing of the
first call reaching the second; when neither message holds a line feed these
are exactly two lines; the output of `main` is the two lines of its two
messages and nothing else. -/
theorem Logger_twice (A B : String) (w : World) :
    (Logger B (Logger A w)).stdout =
        w.stdout ++
          (Logger A { w with stdout := "", clock := fun _ => w.clock w.nowCalls }).stdout ++
          (Logger B { w with stdout := "", clock := fun _ => w.clock (w.nowCalls + 1) }).stdout ∧
      (NoLineBreak A → NoLineBreak B →
        outputLines (written w (Logger B (Logger A w))) =
          ["[" ++ (w.clock w.nowCalls).Format "15:04:05" ++ "] LOG: " ++ A,
            "[" ++ (w.clock (w.nowCalls + 1)).Format "15:04:05" ++ "] LOG: " ++ B, ""]) ∧
      (main w).stdout =
        w.stdout ++
          ("[" ++ (w.clock w.nowCalls).Format "15:04:05" ++ "] LOG: " ++
            "Hello World dari GoSmartPush v17.2!" ++ "\n" ++
            ("[" ++ (w.clock (w.nowCalls + 1)).Format "15:04:05" ++ "] LOG: " ++
              "Sistem @dev_dayuwidayadi siap tempur!" ++ "\n")) ∧
      outputLines (written w (main w)) =
        ["[" ++ (w.clock w.nowCalls).Format "15:04:05" ++ "] LOG: " ++
            "Hello World dari GoSmartPush v17.2!",
          "[" ++ (w.clock (w.nowCalls + 1)).Format "15:04:05" ++ "] LOG: " ++
            "Sistem @dev_dayuwidayadi siap tempur!", ""] := by
  have hboth : ∀ X Y : String, (Logger Y (Logger X w)).stdout =
      w.stdout ++ (("[" ++ (w.clock w.nowCalls).Format "15:04:05" ++ "] LOG: " ++ X) ++ "\n" ++
        (("[" ++ (w.clock (w.nowCalls + 1)).Format "15:04:05" ++ "] LOG: " ++ Y) ++ "\n" ++
          "")) := by
    intro X Y
    rw [Logger_stdout, Logger_stdout, (Logger_clock X w).1, (Logger_clock X w).2]
    apply String.ext
    simp
  have hlines : ∀ X Y : String, NoLineBreak X → NoLineBreak Y →
      outputLines (written w (Logger Y (Logger X w))) =
        ["[" ++ (w.clock w.nowCalls).Format "15:04:05" ++ "] LOG: " ++ X,
          "[" ++ (w.clock (w.nowCalls + 1)).Format "15:04:05" ++ "] LOG: " ++ Y, ""] := by
    intro X Y hX hY
    rw [written_eq w _ _ (hboth X Y),
      outputLines_line _ _ (noLineBreak_append _ _ (noLineBreak_append _ _
        (noLineBreak_append _ _ (by decide) (noLineBreak_Format _)) (by decide)) hX),
      outputLines_line _ _ (noLineBreak_append _ _ (noLineBreak_append _ _
        (noLineBreak_append _ _ (by decide) (noLineBreak_Format _)) (by decide)) hY),
      outputLines_empty]
  refine ⟨?_, hlines A B, ?_, ?_⟩
  · rw [hboth, Logger_stdout, Logger_stdout]
    apply String.ext
    simp
  · show (Logger _ (Logger _ w)).stdout = _
    rw [hboth]
    apply String.ext
    simp
  · exact hlines "Hello World dari GoSmartPush v17.2!" "Sistem @dev_dayuwidayadi siap tempur!"
      (by decide) (by decide)

/-- C9, amended, at the messages `A` and `B` in the sample world: neither holds
a line feed and the two calls print exactly two lines. -/
theorem Logger_twice_sample :
    NoLineBreak "A" ∧ NoLineBreak "B" ∧
      outputLines (written sampleWorld (Logger "B" (Logger "A" sampleWorld))) =
        ["[" ++ (sampleWorld.clock sampleWorld.nowCalls).Format "15:04:05" ++ "] LOG: " ++ "A",
          "[" ++ (sampleWorld.clock (sampleWorld.nowCalls + 1)).Format "15:04:05" ++
            "] LOG: " ++ "B", ""] :=
  ⟨by decide, by decide, (Logger_twice "A" "B" sampleWorld).2.1 (by decide) (by decide)⟩

/-! ## Order of the printed timestamps -/

theorem digit_lt (a b : Nat) (ha : a < 10) (hb : b < 10) (h : a < b) :
    Char.ofNat (48 + a) < Char.ofNat (48 + b) := by
  interval_cases a <;> interval_cases b <;> first | omega | decide

theorem digit_cons_lt (a b : Nat) (xs ys : List Char) (ha : a < 10) (hb : b < 10)
    (h : a < b ∨ (a = b ∧ xs < ys)) :
    Char.ofNat (48 + a) :: xs < Char.ofNat (48 + b) :: ys := by
  rcases h with h | ⟨rfl, h⟩
  · exact List.Lex.rel (digit_lt a b ha hb h)
  · exact List.Lex.cons h

theorem clock_text_lt (a b : Nat) (hd : a / 86400 = b / 86400) (h : a < b) :
    twoDigit (a % 86400 / 3600) ++ ":" ++ twoDigit (a % 3600 / 60) ++ ":" ++ twoDigit (a % 60) <
      twoDigit (b % 86400 / 3600) ++ ":" ++ twoDigit (b % 3600 / 60) ++ ":" ++
        twoDigit (b % 60) := by
  rw [String.lt_iff_toList_lt]
  show Char.ofNat (48 + a % 86400 / 3600 / 10) :: Char.ofNat (48 + a % 86400 / 3600 % 10) ::
        ':' :: Char.ofNat (48 + a % 3600 / 60 / 10) :: Char.ofNat (48 + a % 3600 / 60 % 10) ::
        ':' :: Char.ofNat (48 + a % 60 / 10) :: [Char.ofNat (48 + a % 60 % 10)] <
      Char.ofNat (48 + b % 86400 / 3600 / 10) :: Char.ofNat (48 + b % 86400 / 3600 % 10) ::
        ':' :: Char.ofNat (48 + b % 3600 / 60 / 10) :: Char.ofNat (48 + b % 3600 / 60 % 10) ::
        ':' :: Char.ofNat (48 + b % 60 / 10) :: [Char.ofNat (48 + b % 60 % 10)]
  by_cases e1 : a % 86400 / 3600 / 10 = b % 86400 / 3600 / 10
  · refine digit_cons_lt _ _ _ _ (by omega) (by omega) (Or.inr ⟨e1, ?_⟩)
    by_cases e2 : a % 86400 / 3600 % 10 = b % 86400 / 3600 % 10
    · refine digit_cons_lt _ _ _ _ (by omega) (by omega) (Or.inr ⟨e2, ?_⟩)
      refine List.Lex.cons ?_
      by_cases e3 : a % 3600 / 60 / 10 = b % 3600 / 60 / 10
      · refine digit_cons_lt _ _ _ _ (by omega) (by omega) (Or.inr ⟨e3, ?_⟩)
        by_cases e4 : a % 3600 / 60 % 10 = b % 3600 / 60 % 10
        · refine digit_cons_lt _ _ _ _ (by omega) (by omega) (Or.inr ⟨e4, ?_⟩)
          refine List.Lex.cons ?_
          by_cases e5 : a % 60 / 10 = b % 60 / 10
          · refine digit_cons_lt _ _ _ _ (by omega) (by omega) (Or.inr ⟨e5, ?_⟩)
            exact List.Lex.rel (digit_lt _ _ (by omega) (by omega) (by omega))
          · exact digit_cons_lt _ _ _ _ (by omega) (by omega) (Or.inl (by omega))
        · exact digit_cons_lt _ _ _ _ (by omega) (by omega) (Or.inl (by omega))
      · exact digit_cons_lt _ _ _ _ (by omega) (by omega) (Or.inl (by omega))
    · exact digit_cons_lt _ _ _ _ (by omega) (by omega) (Or.inl (by omega))
  · exact digit_cons_lt _ _ _ _ (by omega) (by omega) (Or.inl (by omega))

theorem Format_le_of_same_day (t1 t2 : Time) (hd : t1.abs / 86400 = t2.abs / 86400)
    (h : t1.abs ≤ t2.abs) : t1.Format "15:04:05" ≤ t2.Format "15:04:05" := by
  rw [Format_clock, Format_clock]
  rcases Nat.eq_or_lt_of_le h with e | hlt
  · rw [e]
  · exact le_of_lt (clock_text_lt _ _ hd hlt)

/-- C10, as the claim states it, fails in two ways.  At midnight: with the
first reading at 23:59:59 and the second one second later, at the same offset,
the calls print `23:59:59` and then `00:00:00`.  At the end of summer time:
with the first reading at 02:59:59, offset +2h, and the second one second
later at offset +1h, on the same local day, the calls print `02:59:59` and then
`02:00:00`. -/
theorem Logger_timestamps_not_monotone :
    ((sampleWorld.clock 0).InRange ∧ (sampleWorld.clock 1).InRange ∧
      (sampleWorld.clock 0).sec ≤ (sampleWorld.clock 1).sec ∧
      (sampleWorld.clock 0).offset = (sampleWorld.clock 1).offset ∧
      (Logger "B" (Logger "A" sampleWorld)).stdout =
        "[23:59:59] LOG: A\n[00:00:00] LOG: B\n" ∧
      ¬ (("23:59:59" : String) ≤ "00:00:00")) ∧
    ((fallBackWorld.clock 0).InRange ∧ (fallBackWorld.clock 1).InRange ∧
      (fallBackWorld.clock 0).sec ≤ (fallBackWorld.clock 1).sec ∧
      ((fallBackWorld.clock 0).sec + (fallBackWorld.clock 0).offset) / 86400 =
        ((fallBackWorld.clock 1).sec + (fallBackWorld.clock 1).offset) / 86400 ∧
      (Logger "B" (Logger "A" fallBackWorld)).stdout =
        "[02:59:59] LOG: A\n[02:00:00] LOG: B\n" ∧
      ¬ (("02:59:59" : String) ≤ "02:00:00")) := by
  refine ⟨⟨by decide, by decide, by decide, by decide, by decide, ?_⟩,
    ⟨by decide, by decide, by decide, by decide, by decide, ?_⟩⟩
  · rw [not_le, String.lt_iff_toList_lt]
    decide
  · rw [not_le, String.lt_iff_toList_lt]
    decide

/-- C10, amended: for two sequential `Logger` calls whose clock readings are
in order (`t1 ≤ t2` in Unix seconds), whose zone offset does not decrease from
the first to the second, and whose local times fall on the same local day, the
`HH:MM:SS` text of the first line is at most the text of the second, in the
lexicographic order of strings. -/
theorem Logger_timestamps_ordered_within_day (A B : String) (w : World)
    (hr1 : (w.clock w.nowCalls).InRange) (hr2 : (w.clock (w.nowCalls + 1)).InRange)
    (hle : (w.clock w.nowCalls).sec ≤ (w.clock (w.nowCalls + 1)).sec)
    (hoff : (w.clock w.nowCalls).offset ≤ (w.clock (w.nowCalls + 1)).offset)
    (hday : ((w.clock w.nowCalls).sec + (w.clock w.nowCalls).offset) / 86400 =
      ((w.clock (w.nowCalls + 1)).sec + (w.clock (w.nowCalls + 1)).offset) / 86400) :
    (Logger B (Logger A w)).stdout =
        w.stdout ++ ("[" ++ (w.clock w.nowCalls).Format "15:04:05" ++ "] LOG: " ++ A ++ "\n" ++
          ("[" ++ (w.clock (w.nowCalls + 1)).Format "15:04:05" ++ "] LOG: " ++ B ++ "\n")) ∧
      (w.clock w.nowCalls).Format "15:04:05" ≤ (w.clock (w.nowCalls + 1)).Format "15:04:05" := by
  have ha1 := abs_of_inRange _ hr1
  have ha2 := abs_of_inRange _ hr2
  refine ⟨?_, Format_le_of_same_day _ _ (by omega) (by omega)⟩
  rw [Logger_stdout, Logger_stdout, (Logger_clock A w).1, (Logger_clock A w).2]
  apply String.ext
  simp

/-- C10, amended, at a world seven hours east of UTC whose clock reads 16:53:20
and then 16:53:21 local time: the hypotheses hold and `16:53:20` is at most
`16:53:21`. -/
theorem Logger_timestamps_ordered_sample :
    (jakartaWorld.clock jakartaWorld.nowCalls).InRange ∧
      (jakartaWorld.clock (jakartaWorld.nowCalls + 1)).InRange ∧
      (jakartaWorld.clock jakartaWorld.nowCalls).sec ≤
        (jakartaWorld.clock (jakartaWorld.nowCalls + 1)).sec ∧
      (jakartaWorld.clock jakartaWorld.nowCalls).offset ≤
        (jakartaWorld.clock (jakartaWorld.nowCalls + 1)).offset ∧
      ((jakartaWorld.clock jakartaWorld.nowCalls).sec +
          (jakartaWorld.clock jakartaWorld.nowCalls).offset) / 86400 =
        ((jakartaWorld.clock (jakartaWorld.nowCalls + 1)).sec +
          (jakartaWorld.clock (jakartaWorld.nowCalls + 1)).offset) / 86400 ∧
      (Logger "B" (Logger "A" jakartaWorld)).stdout =
        "[16:53:20] LOG: A\n[16:53:21] LOG: B\n" ∧
      (jakartaWorld.clock jakartaWorld.nowCalls).Format "15:04:05" ≤
        (jakartaWorld.clock (jakartaWorld.nowCalls + 1)).Format "15:04:05" :=
  ⟨by decide, by decide, by decide, by decide, by decide, by decide,
    (Logger_timestamps_ordered_within_day "A" "B" jakartaWorld (by decide) (by decide)
      (by decide) (by decide) (by decide)).2⟩

end GoSmartPush
